import Mathlib

set_option maxRecDepth 10000

namespace MCPCSV

/-! Shallow embedding of `src/index.ts` of the MCP-CSV-Analysis-with-Gemini-AI
server.  External collaborators — the WHATWG `fetch`, the `csv-parser` stream,
the Gemini model client, the Python renderer subprocess, the Supabase storage
client, the filesystem existence checks and the clock — are modelled as oracle
fields of environment records, one oracle per awaited external call.  Every
side effect performed by the handlers is recorded in an `Event` trace so that
ordering and absence-of-effect properties can be stated. -/

/-- A parsed CSV record (`Record<string, string>`): ordered column/cell pairs,
as produced by the `csv-parser` stream for one data row. -/
abbrev Row := List (String × String)

/-- Embeds `Object.keys(row)`: the column names of a record, in insertion order. -/
def Row.keys (r : Row) : List String := r.map Prod.fst

/-- JS property read `row[col]` on a record: `undefined` is `none`. -/
def Row.cell (r : Row) (col : String) : Option String := List.lookup col r

/-- JS `s.includes(pat)`: substring containment. -/
def containsSub (s pat : String) : Bool := decide (pat.data <:+: s.data)

/-- A JS number produced by `Number(_)`: either the NaN sentinel or a value. -/
inductive JSNum where
  | nan : JSNum
  | num : Rat → JSNum
  deriving DecidableEq, Repr

/-- The `ChartConfiguration` object built by `createVisualizationWithImage`
(and `createVisualization`): chart type, `labels` from column 1, one dataset
labelled by column 2 with `Number`-coerced values, and the title text. -/
structure ChartConfig where
  type : String
  labels : List (Option String)
  datasetLabel : Option String
  data : List JSNum
  titleText : String
  deriving DecidableEq, Repr

/-- One observable side effect of a tool invocation, in execution order. -/
inductive Event where
  | validateArgs (tool : String)
  | mkdirOutput (dir : String)
  | fetchURL (url : String)
  | readLocal (path : String)
  | modelCall (prompt : String)
  | writeFile (path : String) (content : String)
  | writeChartConfig (path : String) (config : ChartConfig)
  | renderSubprocess (configPath imagePath : String)
  | storageUpload (filename : String)
  deriving DecidableEq, Repr

/-- Events that are external network or subprocess calls (the classes named by
the spec's side-effect-ordering rule); local filesystem reads/writes are not. -/
def Event.isExternalCall : Event → Bool
  | .fetchURL _ => true
  | .modelCall _ => true
  | .renderSubprocess _ _ => true
  | .storageUpload _ => true
  | _ => false

/-- Events that belong to the validation / directory-preparation phase. -/
def Event.isValidateOrMkdir : Event → Bool
  | .validateArgs _ => true
  | .mkdirOutput _ => true
  | _ => false

/-- Outcome of one awaited `fetch(filePath, { signal })` call, as observed by
`readCSVFile`: the abort fired (`timeout`), the promise rejected with a
network-level error (`netError`), or a response arrived carrying a status,
status text, content type (`headers.get('content-type') || ''`), body
presence, and the outcome of streaming the body through the csv parser. -/
inductive FetchOutcome where
  | timeout
  | netError (msg : String)
  | response (status : Nat) (statusText : String) (contentType : String)
      (bodyPresent : Bool) (parseResult : Except String (List Row))

/-- Oracles for the two I/O paths of `readCSVFile`: whether `new URL(p)`
succeeds, what the fetch of a URL yields, and what streaming a local path
through `createReadStream` + csv parser yields. -/
structure LoaderEnv where
  urlValid : String → Bool
  fetchOutcome : String → FetchOutcome
  localRead : String → Except String (List Row)

/-- Embeds `filePath.startsWith('http://') || filePath.startsWith('https://')`
(string prefix tests, expressed on the character lists). -/
def isURLRef (filePath : String) : Bool :=
  decide ("http://".data <+: filePath.data) ||
  decide ("https://".data <+: filePath.data)

/-- The 30000 ms fetch timeout of `readCSVFile`. -/
def timeoutMs : Nat := 30000

/-- The message `Failed to fetch CSV from URL: ${filePath} - ${msg}`. -/
def fetchErrMsg (filePath msg : String) : String :=
  "Failed to fetch CSV from URL: " ++ filePath ++ " - " ++ msg

/-- The message thrown when the response declares an HTML content type. -/
def htmlContentTypeMsg (filePath contentType : String) : String :=
  "Failed to fetch CSV from URL: " ++ filePath ++ " - " ++
  "Server returned HTML instead of CSV (Content-Type: " ++ contentType ++ "). " ++
  "This usually means the URL points to a web page, not a raw CSV file. " ++
  "If using Google Sheets, use the export URL format: https://docs.google.com/spreadsheets/d/SHEET_ID/export?format=csv. " ++
  "For GitHub, use the \x27Raw\x27 button URL. For other services, ensure you\x27re using the direct download/export link."

/-- The message thrown when the parsed header row contains HTML markers. -/
def parsedHTMLMsg (filePath : String) : String :=
  "Failed to parse CSV from URL: " ++ filePath ++ " - " ++
  "Received HTML content instead of CSV data. " ++
  "The URL appears to point to a web page, not a raw CSV file. " ++
  "Please ensure you\x27re using a direct CSV download/export link. " ++
  "Examples: " ++
  "- Google Sheets: https://docs.google.com/spreadsheets/d/SHEET_ID/export?format=csv " ++
  "- GitHub: Click \x27Raw\x27 button to get the raw file URL " ++
  "- Dropbox: Use dl=1 instead of dl=0 in the URL"

/-- The HTML-marker inspection of the first parsed record's column names
(`columns.some(col => col.includes('<!DOCTYPE') || ...)`). -/
def hasHTMLTags (firstRow : Row) : Bool :=
  (Row.keys firstRow).any fun col =>
    containsSub col "<!DOCTYPE" || containsSub col "<html" || containsSub col "<HTML" ||
    containsSub col "<head" || containsSub col "<body"

/-- Embedding of `readCSVFile`.  Returns the fulfilled/rejected promise value
together with the trace of external reads it performed.  Throw sites inside
the URL branch's `try` block are re-wrapped by its `catch` clause (which
prefixes `Failed to fetch CSV from URL: ${filePath} - ` to the caught
message), exactly as in the source; the abort of the fetch by the 30 s timer
surfaces as the `AbortError` branch of that `catch`. -/
def readCSVFile (env : LoaderEnv) (filePath : String) :
    Except String (List Row) × List Event :=
  if isURLRef filePath then
    if env.urlValid filePath = false then
      (.error ("Invalid URL: " ++ filePath), [])
    else
      match env.fetchOutcome filePath with
      | .timeout =>
          (.error (fetchErrMsg filePath ("Timeout exceeded (" ++ Nat.repr timeoutMs ++ "ms)")),
           [.fetchURL filePath])
      | .netError m => (.error (fetchErrMsg filePath m), [.fetchURL filePath])
      | .response status statusText contentType bodyPresent parseResult =>
          if status < 200 ∨ 300 ≤ status then
            (.error (fetchErrMsg filePath
              (fetchErrMsg filePath ("HTTP " ++ Nat.repr status ++ " " ++ statusText))),
             [.fetchURL filePath])
          else if bodyPresent = false then
            (.error (fetchErrMsg filePath (fetchErrMsg filePath "Response body is null")),
             [.fetchURL filePath])
          else if containsSub contentType "text/html" ∨ containsSub contentType "application/xhtml" then
            (.error (fetchErrMsg filePath (htmlContentTypeMsg filePath contentType)),
             [.fetchURL filePath])
          else
            match parseResult with
            | .error m => (.error (fetchErrMsg filePath m), [.fetchURL filePath])
            | .ok results =>
                match results with
                | [] => (.ok [], [.fetchURL filePath])
                | firstRow :: rest =>
                    if hasHTMLTags firstRow then
                      (.error (fetchErrMsg filePath (parsedHTMLMsg filePath)),
                       [.fetchURL filePath])
                    else (.ok (firstRow :: rest), [.fetchURL filePath])
  else
    match env.localRead filePath with
    | .ok results => (.ok results, [.readLocal filePath])
    | .error m =>
        (.error ("Error reading local CSV file: " ++ filePath ++ " - " ++ m),
         [.readLocal filePath])

/-- The basic analysis prompt template of `generateEDAPrompts`, with the
interpolated values (`data.length`, `columns.join(', ')`, `sampleSize`,
`JSON.stringify(sampleData, null, 2)`) as parameters. -/
def basicPrompt (rowCount : Nat) (columns : List String) (sampleSize : Nat)
    (sampleJSON : String) : String :=
  "\nAnalyze this CSV dataset with " ++ Nat.repr rowCount ++
  " rows and the following columns: " ++ String.intercalate ", " columns ++
  ".\nHere\x27s a sample of the first " ++ Nat.repr sampleSize ++ " rows:\n" ++
  sampleJSON ++
  "\n\nPlease provide:\n1. Basic statistical summary for each column\n2. Data quality assessment (missing values, duplicates)\n3. Key insights and patterns\n4. Potential correlations between variables\n5. Recommendations for further analysis\n"

/-- The detailed analysis prompt template of `generateEDAPrompts`. -/
def detailedPrompt (rowCount : Nat) (columns : List String) (sampleSize : Nat)
    (sampleJSON : String) : String :=
  "\nPerform a comprehensive Exploratory Data Analysis (EDA) on this CSV dataset with " ++
  Nat.repr rowCount ++ " rows and columns: " ++ String.intercalate ", " columns ++
  ".\nSample data (" ++ Nat.repr sampleSize ++ " rows):\n" ++
  sampleJSON ++
  "\n\nPlease provide:\n1. Detailed statistical analysis for each column including:\n   - Distribution analysis\n   - Central tendency measures\n   - Dispersion measures\n   - Outlier detection\n2. Comprehensive data quality assessment:\n   - Missing values analysis\n   - Duplicate records\n   - Data consistency\n   - Data validation issues\n3. Advanced pattern recognition:\n   - Temporal patterns (if applicable)\n   - Grouping patterns\n   - Unusual patterns or anomalies\n4. Correlation analysis:\n   - Relationships between variables\n   - Potential causation indicators\n5. Feature importance analysis\n6. Recommendations for:\n   - Data preprocessing\n   - Feature engineering\n   - Modeling approaches\n   - Further analysis steps\n7. Visualization suggestions\n8. Business insights and actionable recommendations\n"

/-- Embedding of `generateEDAPrompts(data, analysisType)`.  `jsonStringify`
stands for the external `JSON.stringify(_, null, 2)`; `columns` comes from
`Object.keys(data[0])` (all call sites guarantee `data` is non-empty). -/
def generateEDAPrompts (jsonStringify : List Row → String) (data : List Row)
    (analysisType : String) : List String :=
  let columns := Row.keys (data.headD [])
  let sampleSize := min data.length 5
  let sampleData := data.take sampleSize
  if analysisType = "basic" then
    [basicPrompt data.length columns sampleSize (jsonStringify sampleData)]
  else
    [basicPrompt data.length columns sampleSize (jsonStringify sampleData),
     detailedPrompt data.length columns sampleSize (jsonStringify sampleData)]

/-- Embeds `Number(cell)` where `cell` is `row[col]` (possibly `undefined`):
`Number(undefined)` is NaN, and a string parses through the external JS
number grammar (`parseNumber`, an oracle) or yields NaN. -/
def jsNumber (parseNumber : String → Option Rat) : Option String → JSNum
  | none => .nan
  | some s =>
      match parseNumber s with
      | none => .nan
      | some v => .num v

/-- JS string coercion of a possibly-`undefined` string (template literals
render `undefined` as `"undefined"`). -/
def jsStr : Option String → String
  | none => "undefined"
  | some s => s

/-- JS array read `columns[i]` (possibly out of range) used as a property
key on a record: an `undefined` index reads the property `"undefined"`. -/
def jsCell (row : Row) : Option String → Option String
  | none => Row.cell row "undefined"
  | some c => Row.cell row c

/-- Builds the chart configuration exactly as the source does:
`labels: data.map(row => row[columns[0]])`,
`data: data.map(row => Number(row[columns[1]]))`,
`text: title || columns[1] + ' by ' + columns[0]` (empty title is falsy). -/
def mkChartConfig (parseNumber : String → Option Rat) (data : List Row)
    (columns : List String) (type title : String) : ChartConfig :=
  { type := type
    labels := data.map fun row => jsCell row (columns.get? 0)
    datasetLabel := columns.get? 1
    data := data.map fun row => jsNumber parseNumber (jsCell row (columns.get? 1))
    titleText :=
      if title = "" then jsStr (columns.get? 1) ++ " by " ++ jsStr (columns.get? 0)
      else title }

/-- Embeds `path.join(dir, filename)` for our always-relative filenames. -/
def pathJoin (dir filename : String) : String := dir ++ "/" ++ filename

/-- Embeds `path.basename`: the component after the last separator. -/
def basename (p : String) : String := (p.splitOn "/").getLastD p

/-- The filename `chart_config_${type}_${timestamp}.json`. -/
def configFilename (type : String) (timestamp : Nat) : String :=
  "chart_config_" ++ type ++ "_" ++ Nat.repr timestamp ++ ".json"

/-- The filename `chart_${type}_${timestamp}.png`. -/
def imageFilename (type : String) (timestamp : Nat) : String :=
  "chart_" ++ type ++ "_" ++ Nat.repr timestamp ++ ".png"

/-- Embedding of `renderChartImage`: if the Python script is absent the
function throws before any subprocess call; otherwise the `execFile` oracle
outcome decides between success and a wrapped
`Failed to render chart image: ${message}` error. -/
def renderChartImage (scriptExists : Bool) (renderExec : Except String Unit)
    (configPath imagePath : String) : Except String Unit × List Event :=
  if scriptExists = false then
    (.error "Python render script not found at: scripts/render_chart.py", [])
  else
    match renderExec with
    | .ok _ => (.ok (), [.renderSubprocess configPath imagePath])
    | .error m => (.error ("Failed to render chart image: " ++ m),
        [.renderSubprocess configPath imagePath])

/-- Outcome of the storage interaction attempted by `uploadToSupabase` once a
client is configured: the upload call reported an error object, the signed-URL
call reported an error object, a signed URL was produced, or the interaction
threw (caught by the function's own `catch`). -/
inductive UploadOutcome where
  | storageError (m : String)
  | signedUrlError (m : String)
  | signedUrl (u : String)
  | thrown (m : String)
  deriving DecidableEq, Repr

/-- Embedding of `uploadToSupabase`: with no configured client it returns
`null` without touching the network; otherwise every failure path logs and
returns `null`, and only a successful upload plus signed-URL call returns the
URL.  The function never throws. -/
def uploadToSupabase (configured : Bool) (outcome : UploadOutcome)
    (filename : String) : Option String × List Event :=
  if configured = false then (none, [])
  else
    match outcome with
    | .storageError _ => (none, [.storageUpload filename])
    | .signedUrlError _ => (none, [.storageUpload filename])
    | .thrown _ => (none, [.storageUpload filename])
    | .signedUrl u => (some u, [.storageUpload filename])

/-- Oracles consumed by `createVisualizationWithImage`: the `Date.now()` read,
the render script's presence, the `execFile` outcome, the `fs.existsSync`
answer for the image path, the Supabase configuration flag, the storage
outcome, and the JS number grammar. -/
structure VisEnv where
  now : Nat
  scriptExists : Bool
  renderExec : Except String Unit
  imageExists : Bool
  supabaseConfigured : Bool
  uploadOutcome : UploadOutcome
  parseNumber : String → Option Rat

/-- The `{ configPath, imagePath, imageUrl }` object returned by
`createVisualizationWithImage`. -/
structure VisResult where
  configPath : String
  imagePath : Option String
  imageUrl : Option String
  deriving DecidableEq, Repr

/-- Embedding of `createVisualizationWithImage`: writes the chart-config
artifact, then inside a `try` attempts the render and (if the image file
exists) the upload; any thrown render error is caught and the function still
returns the config path, with `imagePath` re-checked via `existsSync` and
`imageUrl` as produced (or `null`). -/
def createVisualizationWithImage (env : VisEnv) (data : List Row)
    (columns : List String) (type title outputDir : String) :
    VisResult × List Event :=
  let timestamp := env.now
  let chartConfig := mkChartConfig env.parseNumber data columns type title
  let configPath := pathJoin outputDir (configFilename type timestamp)
  let imagePath := pathJoin outputDir (imageFilename type timestamp)
  let writeEvs := [Event.writeChartConfig configPath chartConfig]
  let (renderRes, renderEvs) :=
    renderChartImage env.scriptExists env.renderExec configPath imagePath
  match renderRes with
  | .error _ =>
      ({ configPath := configPath
         imagePath := if env.imageExists then some imagePath else none
         imageUrl := none },
       writeEvs ++ renderEvs)
  | .ok _ =>
      if env.imageExists then
        let (url, upEvs) :=
          uploadToSupabase env.supabaseConfigured env.uploadOutcome
            (imageFilename type timestamp)
        ({ configPath := configPath
           imagePath := some imagePath
           imageUrl := url },
         writeEvs ++ renderEvs ++ upEvs)
      else
        ({ configPath := configPath, imagePath := none, imageUrl := none },
         writeEvs ++ renderEvs)

/-- The raw argument bundle of a tool invocation (`request.params.arguments`),
with `none` for absent JSON fields. -/
structure RawArgs where
  prompt : Option String := none
  csvPath : Option String := none
  outputDir : Option String := none
  analysisType : Option String := none
  visualizationType : Option String := none
  columns : Option (List String) := none
  title : Option String := none

/-- Parsed `GenerateThinkingSchema` arguments. -/
structure GenArgs where
  prompt : String
  outputDir : Option String

/-- Parsed `AnalyzeCSVSchema` arguments (`analysisType` already defaulted). -/
structure AnalyzeArgs where
  csvPath : String
  outputDir : Option String
  analysisType : String

/-- Parsed `VisualizeDataSchema` arguments (`visualizationType` defaulted). -/
structure VisArgs where
  csvPath : String
  outputDir : Option String
  visualizationType : String
  columns : Option (List String)
  title : Option String

/-- Embeds `GenerateThinkingSchema.parse`: `prompt` is required.  A zod failure
throws; we model the thrown validation error by its summary message. -/
def parseGenerateThinking (a : RawArgs) : Except String GenArgs :=
  match a.prompt with
  | none => .error "Invalid arguments for generate-thinking"
  | some p => .ok { prompt := p, outputDir := a.outputDir }

/-- Embeds `AnalyzeCSVSchema.parse`: `csvPath` required, `analysisType` an optional
member of `{basic, detailed}` defaulting to `detailed`. -/
def parseAnalyzeCSV (a : RawArgs) : Except String AnalyzeArgs :=
  match a.csvPath with
  | none => .error "Invalid arguments for analyze-csv"
  | some p =>
      match a.analysisType with
      | none => .ok { csvPath := p, outputDir := a.outputDir, analysisType := "detailed" }
      | some t =>
          if t = "basic" ∨ t = "detailed" then
            .ok { csvPath := p, outputDir := a.outputDir, analysisType := t }
          else .error "Invalid arguments for analyze-csv"

/-- Embeds `VisualizeDataSchema.parse`: `csvPath` required, `visualizationType` a
member of `{bar, line, scatter, pie}` defaulting to `bar`; `columns` and
`title` optional (the zod schema puts no length bound on `columns`). -/
def parseVisualizeData (a : RawArgs) : Except String VisArgs :=
  match a.csvPath with
  | none => .error "Invalid arguments for visualize-data"
  | some p =>
      match a.visualizationType with
      | none =>
          .ok { csvPath := p
                outputDir := a.outputDir
                visualizationType := "bar"
                columns := a.columns
                title := a.title }
      | some t =>
          if t = "bar" ∨ t = "line" ∨ t = "scatter" ∨ t = "pie" then
            .ok { csvPath := p
                  outputDir := a.outputDir
                  visualizationType := t
                  columns := a.columns
                  title := a.title }
          else .error "Invalid arguments for visualize-data"

/-- The process-wide default output directory (`path.join(process.cwd(),
'output')`, with the working directory abstracted away). -/
def defaultOutputDir : String := "output"

/-- Embeds `customOutputDir ? path.resolve(customOutputDir) : outputDir`
(`path.resolve` on an already-resolved caller path is modelled as identity). -/
def resolveSaveDir (customOutputDir : Option String) : String :=
  customOutputDir.getD defaultOutputDir

/-- One entry of the `responses` array assembled by the analyze-csv case. -/
structure AnalysisPart where
  part : Nat
  content : String
  filename : String
  path : String
  deriving DecidableEq, Repr

/-- The `=== Analysis Part n ===` summary text joined with `'\n'`. -/
def summaryContent (parts : List AnalysisPart) : String :=
  String.intercalate "\n" (parts.map fun r =>
    "=== Analysis Part " ++ Nat.repr r.part ++ " ===\n\n" ++ r.content ++ "\n\n")

/-- The `for (let i = 0; ...)` loop of the analyze-csv case: send each prompt
to the model in order, persist each response to
`csv_analysis_${timestamp}_part${i+1}.txt`, and abort the whole loop on the
first model failure (the thrown error propagates; files already written
stay written, which the trace records). -/
def analyzeParts (modelCall : String → Except String String) (saveDir : String)
    (timestamp : Nat) : List String → Nat →
    Except String (List AnalysisPart) × List Event
  | [], _ => (.ok [], [])
  | p :: rest, i =>
      match modelCall p with
      | .error m => (.error m, [.modelCall p])
      | .ok text =>
          let filename := "csv_analysis_" ++ Nat.repr timestamp ++ "_part" ++
            Nat.repr (i + 1) ++ ".txt"
          let filePath := pathJoin saveDir filename
          match analyzeParts modelCall saveDir timestamp rest (i + 1) with
          | (.ok parts, evs) =>
              (.ok ({ part := i + 1, content := text, filename := filename,
                      path := filePath } :: parts),
               Event.modelCall p :: Event.writeFile filePath text :: evs)
          | (.error m, evs) =>
              (.error m,
               Event.modelCall p :: Event.writeFile filePath text :: evs)

/-- The structured content of a successful tool response (the object that the
handler serializes into the single text content item). -/
inductive ToolResponse where
  | thinking (message filename savedPath : String)
  | analysis (analysisType : String) (parts : List AnalysisPart)
      (summaryFilename summaryPath : String)
  | visualization (visualizationType configPath cfgFilename : String)
      (renderedImage : Option (String × String × Option String))
  deriving DecidableEq, Repr

/-- All oracles a tool invocation may consult, one field per external
collaborator: `fs.existsSync` on directories, the Source Loader's oracles,
`JSON.stringify(_, null, 2)`, `chatSession.sendMessage`, the handler-level
`Date.now()` reads, and the visualization oracles. -/
structure Env where
  dirExists : String → Bool
  loader : LoaderEnv
  jsonStringify : List Row → String
  modelCall : String → Except String String
  now : Nat
  vis : VisEnv

/-- The `generate-thinking` case of the `CallToolRequestSchema` handler. -/
def generateThinkingCase (env : Env) (args : RawArgs) :
    Except String ToolResponse × List Event :=
  match parseGenerateThinking args with
    | .error m => (.error m, [])
    | .ok a =>
        let saveDir := resolveSaveDir a.outputDir
        let dirEvs := if env.dirExists saveDir then [] else [Event.mkdirOutput saveDir]
        match env.modelCall a.prompt with
        | .error m =>
            (.error m,
             Event.validateArgs "generate-thinking" :: dirEvs ++ [.modelCall a.prompt])
        | .ok responseText =>
            let filename := "gemini_thinking_" ++ Nat.repr env.now ++ ".txt"
            let filePath := pathJoin saveDir filename
            (.ok (.thinking responseText filename filePath),
             Event.validateArgs "generate-thinking" :: dirEvs ++
               [.modelCall a.prompt, .writeFile filePath responseText])

/-- The `analyze-csv` case of the `CallToolRequestSchema` handler. -/
def analyzeCSVCase (env : Env) (args : RawArgs) :
    Except String ToolResponse × List Event :=
  match parseAnalyzeCSV args with
    | .error m => (.error m, [])
    | .ok a =>
        let saveDir := resolveSaveDir a.outputDir
        let dirEvs := if env.dirExists saveDir then [] else [Event.mkdirOutput saveDir]
        let (csvRes, loadEvs) := readCSVFile env.loader a.csvPath
        let pre := Event.validateArgs "analyze-csv" :: dirEvs ++ loadEvs
        match csvRes with
        | .error m => (.error m, pre)
        | .ok csvData =>
            if csvData.length = 0 then
              (.error "CSV file is empty or could not be parsed", pre)
            else
              let analysisType :=
                if a.analysisType = "" then "detailed" else a.analysisType
              let prompts := generateEDAPrompts env.jsonStringify csvData analysisType
              let (partsRes, partEvs) :=
                analyzeParts env.modelCall saveDir env.now prompts 0
              match partsRes with
              | .error m => (.error m, pre ++ partEvs)
              | .ok parts =>
                  let summaryFilename :=
                    "csv_analysis_" ++ Nat.repr env.now ++ "_summary.txt"
                  let summaryPath := pathJoin saveDir summaryFilename
                  (.ok (.analysis a.analysisType parts summaryFilename summaryPath),
                   pre ++ partEvs ++
                     [.writeFile summaryPath (summaryContent parts)])

/-- The `visualize-data` case of the `CallToolRequestSchema` handler. -/
def visualizeDataCase (env : Env) (args : RawArgs) :
    Except String ToolResponse × List Event :=
  match parseVisualizeData args with
    | .error m => (.error m, [])
    | .ok a =>
        let saveDir := resolveSaveDir a.outputDir
        let dirEvs := if env.dirExists saveDir then [] else [Event.mkdirOutput saveDir]
        let (csvRes, loadEvs) := readCSVFile env.loader a.csvPath
        let pre := Event.validateArgs "visualize-data" :: dirEvs ++ loadEvs
        match csvRes with
        | .error m => (.error m, pre)
        | .ok csvData =>
            match csvData with
            | [] => (.error "CSV file is empty or could not be parsed", pre)
            | firstRow :: rest =>
                let availableColumns := Row.keys firstRow
                let columnsToVisualize :=
                  match a.columns with
                  | some cs => cs
                  | none => availableColumns.take 2
                if columnsToVisualize.length < 2 then
                  (.error ("At least 2 columns are required for visualization. " ++
                    "Available columns in CSV: [" ++
                    String.intercalate ", " availableColumns ++ "]. " ++
                    "Please ensure your CSV has at least 2 columns, or specify at least 2 column names using the \x27columns\x27 parameter."),
                   pre)
                else
                  let (result, visEvs) :=
                    createVisualizationWithImage env.vis (firstRow :: rest)
                      columnsToVisualize a.visualizationType (a.title.getD "") saveDir
                  (.ok (.visualization a.visualizationType result.configPath
                     (basename result.configPath)
                     (match result.imagePath with
                      | some ip => some (ip, basename ip, result.imageUrl)
                      | none => none)),
                   pre ++ visEvs)

/-- Embedding of the `CallToolRequestSchema` handler: dispatch on the tool
name into the three cases; an unknown name throws `Unknown tool: ${name}`
before any side effect.  A thrown error anywhere surfaces as `.error` (the
handler's `catch` logs and rethrows).  The second component is the ordered
trace of side effects. -/
def callTool (env : Env) (name : String) (args : RawArgs) :
    Except String ToolResponse × List Event :=
  if name = "generate-thinking" then generateThinkingCase env args
  else if name = "analyze-csv" then analyzeCSVCase env args
  else if name = "visualize-data" then visualizeDataCase env args
  else (.error ("Unknown tool: " ++ name), [])

/-! ### Auxiliary definitions for the proofs, and the concrete oracle
environments used by the witnesses -/

/-- Decimal digit list of a natural number, fuel-free companion of
`Nat.toDigitsCore`. -/
def decDigits (n : Nat) : List Char :=
  if n < 10 then [Nat.digitChar n]
  else decDigits (n / 10) ++ [Nat.digitChar (n % 10)]
termination_by n
decreasing_by
  exact Nat.div_lt_self (by omega) (by omega)

/-- Numeric value of a decimal digit character. -/
def chVal (c : Char) : Nat := c.toNat - 48

/-- Concrete environment for exercising the analyze-csv sequence: the model
answers the basic prompt and fails on any other prompt (in particular the
detailed follow-up prompt). -/
def envC1 : Env :=
  { dirExists := fun _ => true
    loader := ⟨fun _ => true, fun _ => FetchOutcome.timeout,
      fun _ => .ok [[("a", "1")]]⟩
    jsonStringify := fun _ => "[]"
    modelCall := fun p =>
      if p = basicPrompt 1 ["a"] 1 "[]" then .ok "part one response"
      else .error "model failure"
    now := 7
    vis := ⟨7, true, .ok (), true, false, .signedUrl "u", fun _ => none⟩ }

/-- Arguments for the C1 runs: a local CSV path, default `detailed` depth. -/
def argsC1 : RawArgs := { csvPath := some "d.csv" }

/-- Projection of the config artifact path from a visualization response. -/
def respConfigPath : Except String ToolResponse → Option String
  | .ok (.visualization _ p _ _) => some p
  | _ => none

/-- First concurrent invocation's environment: `Date.now()` reads 77. -/
def envC2a : Env :=
  { dirExists := fun _ => true
    loader := ⟨fun _ => true, fun _ => FetchOutcome.timeout,
      fun _ => .ok [[("a", "1"), ("b", "2")]]⟩
    jsonStringify := fun _ => "[]"
    modelCall := fun _ => .ok "r"
    now := 77
    vis := ⟨77, false, .error "no renderer", false, false,
      .signedUrl "u", fun _ => none⟩ }

/-- Second concurrent invocation's environment: a different CSV and a
different render outcome, but the same process tick 77. -/
def envC2b : Env :=
  { dirExists := fun _ => true
    loader := ⟨fun _ => true, fun _ => FetchOutcome.timeout,
      fun _ => .ok [[("a", "9"), ("b", "8")]]⟩
    jsonStringify := fun _ => "[]"
    modelCall := fun _ => .ok "r"
    now := 77
    vis := ⟨77, true, .ok (), true, false, .signedUrl "u", fun _ => none⟩ }

/-- Environment whose local CSV has a single column `only`. -/
def envC7 : Env :=
  { dirExists := fun _ => true
    loader := ⟨fun _ => true, fun _ => FetchOutcome.timeout,
      fun _ => .ok [[("only", "1")]]⟩
    jsonStringify := fun _ => "[]"
    modelCall := fun _ => .ok "resp"
    now := 3
    vis := ⟨3, true, .ok (), true, false, .signedUrl "u", fun _ => none⟩ }

/-- Environment whose local CSV has the single column `x`, for C10. -/
def envC10 : Env :=
  { dirExists := fun _ => true
    loader := ⟨fun _ => true, fun _ => FetchOutcome.timeout,
      fun _ => .ok [[("x", "1")]]⟩
    jsonStringify := fun _ => "[]"
    modelCall := fun _ => .ok "resp"
    now := 9
    vis := ⟨9, true, .ok (), true, false, .signedUrl "u", fun _ => none⟩ }

/-- Environment for C3: render succeeds, Supabase configured, upload fails. -/
def envC3 : Env :=
  { dirExists := fun _ => true
    loader := ⟨fun _ => true, fun _ => FetchOutcome.timeout,
      fun _ => .ok [[("a", "1"), ("b", "2")]]⟩
    jsonStringify := fun _ => "[]"
    modelCall := fun _ => .ok "resp"
    now := 5
    vis := ⟨5, true, .ok (), true, true, .storageError "denied",
      fun _ => none⟩ }

/-- Environment for the C4 witness. -/
def envC4 : Env :=
  { dirExists := fun _ => false
    loader := ⟨fun _ => true, fun _ => FetchOutcome.timeout, fun _ => .ok []⟩
    jsonStringify := fun _ => "[]"
    modelCall := fun _ => .ok "resp"
    now := 1
    vis := ⟨1, true, .ok (), true, false, .signedUrl "u", fun _ => none⟩ }

/-! ### String and decimal-representation lemmas -/

theorem callTool_generateThinking (env : Env) (args : RawArgs) :
    callTool env "generate-thinking" args = generateThinkingCase env args := rfl

theorem callTool_analyzeCSV (env : Env) (args : RawArgs) :
    callTool env "analyze-csv" args = analyzeCSVCase env args := by
  unfold callTool
  rw [if_neg (by decide : ¬ (("analyze-csv" : String) = "generate-thinking")),
      if_pos rfl]

theorem callTool_visualizeData (env : Env) (args : RawArgs) :
    callTool env "visualize-data" args = visualizeDataCase env args := by
  unfold callTool
  rw [if_neg (by decide : ¬ (("visualize-data" : String) = "generate-thinking")),
      if_neg (by decide : ¬ (("visualize-data" : String) = "analyze-csv")),
      if_pos rfl]

theorem string_ext {s t : String} (h : s.data = t.data) : s = t := by
  cases s; cases t; exact congrArg String.mk h

theorem strAppend_left_cancel {a x y : String} (h : a ++ x = a ++ y) : x = y := by
  apply string_ext
  have hd := congrArg String.data h
  rw [String.data_append, String.data_append] at hd
  exact List.append_cancel_left hd

theorem strAppend_right_cancel {x y b : String} (h : x ++ b = y ++ b) : x = y := by
  apply string_ext
  have hd := congrArg String.data h
  rw [String.data_append, String.data_append] at hd
  exact List.append_cancel_right hd

theorem toDigitsCore_eq_decDigits :
    ∀ (fuel n : Nat) (ds : List Char), n < fuel →
      Nat.toDigitsCore 10 fuel n ds = decDigits n ++ ds := by
  intro fuel
  induction fuel with
  | zero => intro n ds h; omega
  | succ f ih =>
      intro n ds h
      rw [Nat.toDigitsCore]
      by_cases h10 : n < 10
      · have hz : n / 10 = 0 := Nat.div_eq_of_lt h10
        rw [decDigits]
        simp only [hz, if_pos rfl, h10, if_pos]
        have hm : n % 10 = n := Nat.mod_eq_of_lt h10
        simp [hm]
      · have hz : ¬ (n / 10 = 0) := by
          intro hc
          have := (Nat.div_eq_zero_iff (by omega)).mp hc
          omega
        have hlt : n / 10 < f := by
          have h1 : n / 10 < n := Nat.div_lt_self (by omega) (by omega)
          omega
        rw [decDigits]
        simp only [if_neg hz, if_neg h10]
        rw [ih (n / 10) (Nat.digitChar (n % 10) :: ds) hlt]
        simp

theorem toDigits_eq_decDigits (n : Nat) : Nat.toDigits 10 n = decDigits n := by
  have h := toDigitsCore_eq_decDigits (n + 1) n [] (Nat.lt_succ_self n)
  simpa [Nat.toDigits] using h

theorem chVal_digitChar {d : Nat} (h : d < 10) : chVal (Nat.digitChar d) = d := by
  interval_cases d <;> decide

theorem foldl_decDigits :
    ∀ (n a : Nat), List.foldl (fun x c => 10 * x + chVal c) a (decDigits n) =
      a * 10 ^ (decDigits n).length + n := by
  intro n
  induction n using Nat.strong_induction_on with
  | _ n ih =>
      intro a
      by_cases h10 : n < 10
      · rw [decDigits, if_pos h10]
        simp [List.foldl, chVal_digitChar h10]
        ring
      · have hlt : n / 10 < n := Nat.div_lt_self (by omega) (by omega)
        rw [decDigits, if_neg h10]
        rw [List.foldl_append]
        rw [ih (n / 10) hlt a]
        simp only [List.foldl, List.length_append, List.length_singleton]
        rw [chVal_digitChar (Nat.mod_lt n (by omega))]
        have hdm : 10 * (n / 10) + n % 10 = n := Nat.div_add_mod n 10
        ring_nf
        omega

theorem decDigits_inj {m n : Nat} (h : decDigits m = decDigits n) : m = n := by
  have hm := foldl_decDigits m 0
  have hn := foldl_decDigits n 0
  rw [h] at hm
  omega

theorem natRepr_inj {m n : Nat} (h : Nat.repr m = Nat.repr n) : m = n := by
  apply decDigits_inj
  have hd := congrArg String.data h
  rw [Nat.repr, Nat.repr, toDigits_eq_decDigits, toDigits_eq_decDigits] at hd
  exact hd

theorem containsSub_iff {s pat : String} :
    containsSub s pat = true ↔ pat.data <:+: s.data := by
  simp [containsSub]

theorem containsSub_self (s : String) : containsSub s s = true :=
  containsSub_iff.mpr (List.infix_rfl)

theorem containsSub_append_left {s pat : String} (t : String)
    (h : containsSub s pat = true) : containsSub (s ++ t) pat = true := by
  rw [containsSub_iff] at h ⊢
  rw [String.data_append]
  exact h.trans (List.prefix_append s.data t.data).isInfix

theorem containsSub_append_right (s : String) {t pat : String}
    (h : containsSub t pat = true) : containsSub (s ++ t) pat = true := by
  rw [containsSub_iff] at h ⊢
  rw [String.data_append]
  exact h.trans (List.suffix_append s.data t.data).isInfix

theorem configFilename_inj {type : String} {t1 t2 : Nat}
    (h : configFilename type t1 = configFilename type t2) : t1 = t2 := by
  unfold configFilename at h
  exact natRepr_inj (strAppend_left_cancel (strAppend_right_cancel h))

theorem imageFilename_inj {type : String} {t1 t2 : Nat}
    (h : imageFilename type t1 = imageFilename type t2) : t1 = t2 := by
  unfold imageFilename at h
  exact natRepr_inj (strAppend_left_cancel (strAppend_right_cancel h))

/-! ### Trace classification lemmas -/

theorem readCSVFile_events (env : LoaderEnv) (p : String) :
    ∀ e ∈ (readCSVFile env p).snd, e = Event.fetchURL p ∨ e = Event.readLocal p := by
  intro e he
  unfold readCSVFile at he
  repeat' split at he
  all_goals simp at he
  all_goals simp [he]

theorem analyzeParts_events (mc : String → Except String String) (d : String)
    (ts : Nat) :
    ∀ (ps : List String) (i : Nat), ∀ e ∈ (analyzeParts mc d ts ps i).snd,
      (∃ q, e = Event.modelCall q) ∨ (∃ f c, e = Event.writeFile f c) := by
  intro ps
  induction ps with
  | nil => intro i e he; simp [analyzeParts] at he
  | cons p rest ih =>
      intro i e he
      rw [analyzeParts] at he
      cases hmc : mc p with
      | error m =>
          rw [hmc] at he
          simp at he
          exact .inl ⟨p, he⟩
      | ok text =>
          rw [hmc] at he
          cases hrec : analyzeParts mc d ts rest (i + 1) with
          | mk res evs =>
              rw [hrec] at he
              have hevs : ∀ x ∈ evs, (∃ q, x = Event.modelCall q) ∨
                  (∃ f c, x = Event.writeFile f c) := by
                intro x hx
                exact ih (i + 1) x (by rw [hrec]; exact hx)
              cases res with
              | ok parts =>
                  simp at he
                  rcases he with h | h | h
                  · exact .inl ⟨p, h⟩
                  · exact .inr ⟨_, _, h⟩
                  · exact hevs e h
              | error m =>
                  simp at he
                  rcases he with h | h | h
                  · exact .inl ⟨p, h⟩
                  · exact .inr ⟨_, _, h⟩
                  · exact hevs e h

theorem createVis_events (env : VisEnv) (data : List Row) (cols : List String)
    (ty ti od : String) :
    ∀ e ∈ (createVisualizationWithImage env data cols ty ti od).snd,
      (∃ p c, e = Event.writeChartConfig p c) ∨
      (∃ a b, e = Event.renderSubprocess a b) ∨
      (∃ f, e = Event.storageUpload f) := by
  intro e he
  unfold createVisualizationWithImage renderChartImage uploadToSupabase at he
  rcases env with ⟨now, se, re, ie, sc, uo, pn⟩
  cases se <;> cases re <;> cases ie <;> cases sc <;> cases uo <;>
    simp at he <;> aesop

/-! ### Claim C5: invalid URL fails fast with no network call -/

/-- C5: every source reference classified as a URL (`http://`/`https://`
prefix) whose `new URL(...)` parse fails makes `readCSVFile` fail with the
`Invalid URL: ...` (InvalidReference) error and an empty effect trace — in
particular no fetch is performed. -/
theorem c5_invalid_url_fails_fast (env : LoaderEnv) (filePath : String)
    (hurl : isURLRef filePath = true) (hbad : env.urlValid filePath = false) :
    readCSVFile env filePath = (.error ("Invalid URL: " ++ filePath), []) := by
  unfold readCSVFile
  rw [hurl, hbad]
  simp

/-- Witness for C5: the reference `"http://"` (URL-classified, rejected by the
WHATWG parser) yields the InvalidReference error and no fetch event. -/
theorem c5_witness :
    isURLRef "http://" = true ∧
    readCSVFile ⟨fun _ => false, fun _ => FetchOutcome.timeout, fun _ => .ok []⟩
      "http://" = (.error ("Invalid URL: " ++ "http://"), []) :=
  ⟨by decide,
   c5_invalid_url_fails_fast ⟨fun _ => false, fun _ => FetchOutcome.timeout,
     fun _ => .ok []⟩ "http://" (by decide) rfl⟩

/-! ### Claim C9: the HTML-marker header check applies only to URL sources -/

/-- C9: a local-path source (not URL-classified) that parses successfully is
returned as-is: the local branch of `readCSVFile` never inspects column names
for HTML tag fragments, so even a header containing `<!DOCTYPE` or `<html`
yields a valid row set rather than a MalformedSource error. -/
theorem c9_local_sources_skip_html_check (env : LoaderEnv) (filePath : String)
    (hloc : isURLRef filePath = false) (rows : List Row)
    (hread : env.localRead filePath = .ok rows) :
    readCSVFile env filePath = (.ok rows, [.readLocal filePath]) := by
  unfold readCSVFile
  rw [hloc]
  simp [hread]

/-- Witness for C9: a local file whose single parsed record has the column
name `<!DOCTYPE html><html>` — which the URL branch would reject via
`hasHTMLTags` — is returned unchanged by the local branch. -/
theorem c9_witness :
    isURLRef "data.csv" = false ∧
    hasHTMLTags [("<!DOCTYPE html><html>", "x")] = true ∧
    readCSVFile ⟨fun _ => true, fun _ => FetchOutcome.timeout,
        fun _ => .ok [[("<!DOCTYPE html><html>", "x")]]⟩ "data.csv" =
      (.ok [[("<!DOCTYPE html><html>", "x")]], [.readLocal "data.csv"]) :=
  ⟨by decide, by decide,
   c9_local_sources_skip_html_check
     ⟨fun _ => true, fun _ => FetchOutcome.timeout,
      fun _ => .ok [[("<!DOCTYPE html><html>", "x")]]⟩ "data.csv"
     (by decide) [[("<!DOCTYPE html><html>", "x")]] rfl⟩

/-! ### Claim C6: fetch timeout is classified distinctly -/

/-- C6: a fetch that hits the 30 s abort fails with the FetchTimeout error
(`... - Timeout exceeded (30000ms)`), which is distinct from the FetchFailed
error produced for a network-level rejection (for any underlying message
other than the timeout text itself) and distinct from the FetchRejected error
produced for a non-2xx HTTP status; the FetchRejected message carries the
status code.  The timeout outcome is the `AbortError` raised by the
`AbortController` cancelling the underlying network operation. -/
theorem c6_timeout_distinct (env : LoaderEnv) (filePath : String)
    (hurl : isURLRef filePath = true) (hok : env.urlValid filePath = true)
    (m : String) (hm : m ≠ "Timeout exceeded (30000ms)")
    (status : Nat) (statusText : String) :
    (env.fetchOutcome filePath = .timeout →
      readCSVFile env filePath =
        (.error (fetchErrMsg filePath
          ("Timeout exceeded (" ++ Nat.repr timeoutMs ++ "ms)")),
         [.fetchURL filePath])) ∧
    (env.fetchOutcome filePath = .netError m →
      readCSVFile env filePath =
        (.error (fetchErrMsg filePath m), [.fetchURL filePath])) ∧
    (∀ ct bp pr, env.fetchOutcome filePath = .response status statusText ct bp pr →
      status < 200 ∨ 300 ≤ status →
      readCSVFile env filePath =
        (.error (fetchErrMsg filePath (fetchErrMsg filePath
          ("HTTP " ++ Nat.repr status ++ " " ++ statusText))),
         [.fetchURL filePath])) ∧
    fetchErrMsg filePath ("Timeout exceeded (" ++ Nat.repr timeoutMs ++ "ms)") ≠
      fetchErrMsg filePath m ∧
    fetchErrMsg filePath ("Timeout exceeded (" ++ Nat.repr timeoutMs ++ "ms)") ≠
      fetchErrMsg filePath (fetchErrMsg filePath
        ("HTTP " ++ Nat.repr status ++ " " ++ statusText)) ∧
    containsSub (fetchErrMsg filePath (fetchErrMsg filePath
        ("HTTP " ++ Nat.repr status ++ " " ++ statusText)))
      (Nat.repr status) = true := by
  refine ⟨?_, ?_, ?_, ?_, ?_, ?_⟩
  · intro hout
    unfold readCSVFile
    rw [hurl, hok]
    simp [hout]
  · intro hout
    unfold readCSVFile
    rw [hurl, hok]
    simp [hout]
  · intro ct bp pr hout hbad
    unfold readCSVFile
    rw [hurl, hok]
    simp only [hout]
    rw [if_pos hbad]
    simp
  · intro heq
    unfold fetchErrMsg at heq
    have h2 := strAppend_left_cancel heq
    have h3 : ("Timeout exceeded (" ++ Nat.repr timeoutMs ++ "ms)") =
        "Timeout exceeded (30000ms)" := by decide
    exact hm (h3 ▸ h2.symm)
  · intro heq
    unfold fetchErrMsg at heq
    have h2 := strAppend_left_cancel heq
    have hl := congrArg String.length h2
    simp only [String.length_append] at hl
    have e1 : ("Timeout exceeded (").length = 18 := by decide
    have e2 : (Nat.repr timeoutMs).length = 5 := by decide
    have e3 : ("ms)").length = 3 := by decide
    have e4 : ("Failed to fetch CSV from URL: ").length = 30 := by decide
    have e5 : (" - ").length = 3 := by decide
    have e6 : ("HTTP ").length = 5 := by decide
    have e7 : (" ").length = 1 := by decide
    rw [e1, e2, e3, e4, e5, e6, e7] at hl
    omega
  · unfold fetchErrMsg
    exact containsSub_append_right _ (containsSub_append_right _
      (containsSub_append_left _ (containsSub_append_left _
        (containsSub_append_right _ (containsSub_self _)))))

/-- Witness for C6 at a concrete URL, network message and HTTP status. -/
theorem c6_witness :
    isURLRef "http://example.com/d.csv" = true ∧
    (⟨fun _ => true, fun _ => FetchOutcome.timeout, fun _ => .ok []⟩ :
        LoaderEnv).urlValid "http://example.com/d.csv" = true ∧
    "getaddrinfo ENOTFOUND example.com" ≠ "Timeout exceeded (30000ms)" ∧
    ((⟨fun _ => true, fun _ => FetchOutcome.timeout, fun _ => .ok []⟩ :
        LoaderEnv).fetchOutcome "http://example.com/d.csv" = .timeout →
      readCSVFile ⟨fun _ => true, fun _ => FetchOutcome.timeout, fun _ => .ok []⟩
        "http://example.com/d.csv" =
        (.error (fetchErrMsg "http://example.com/d.csv"
          ("Timeout exceeded (" ++ Nat.repr timeoutMs ++ "ms)")),
         [.fetchURL "http://example.com/d.csv"])) ∧
    ((⟨fun _ => true, fun _ => FetchOutcome.timeout, fun _ => .ok []⟩ :
        LoaderEnv).fetchOutcome "http://example.com/d.csv" =
        .netError "getaddrinfo ENOTFOUND example.com" →
      readCSVFile ⟨fun _ => true, fun _ => FetchOutcome.timeout, fun _ => .ok []⟩
        "http://example.com/d.csv" =
        (.error (fetchErrMsg "http://example.com/d.csv"
          "getaddrinfo ENOTFOUND example.com"),
         [.fetchURL "http://example.com/d.csv"])) ∧
    (∀ ct bp pr, (⟨fun _ => true, fun _ => FetchOutcome.timeout, fun _ => .ok []⟩ :
        LoaderEnv).fetchOutcome "http://example.com/d.csv" =
        .response 404 "Not Found" ct bp pr →
      404 < 200 ∨ 300 ≤ 404 →
      readCSVFile ⟨fun _ => true, fun _ => FetchOutcome.timeout, fun _ => .ok []⟩
        "http://example.com/d.csv" =
        (.error (fetchErrMsg "http://example.com/d.csv"
          (fetchErrMsg "http://example.com/d.csv"
            ("HTTP " ++ Nat.repr 404 ++ " " ++ "Not Found"))),
         [.fetchURL "http://example.com/d.csv"])) ∧
    fetchErrMsg "http://example.com/d.csv"
        ("Timeout exceeded (" ++ Nat.repr timeoutMs ++ "ms)") ≠
      fetchErrMsg "http://example.com/d.csv" "getaddrinfo ENOTFOUND example.com" ∧
    fetchErrMsg "http://example.com/d.csv"
        ("Timeout exceeded (" ++ Nat.repr timeoutMs ++ "ms)") ≠
      fetchErrMsg "http://example.com/d.csv" (fetchErrMsg "http://example.com/d.csv"
        ("HTTP " ++ Nat.repr 404 ++ " " ++ "Not Found")) ∧
    containsSub (fetchErrMsg "http://example.com/d.csv"
        (fetchErrMsg "http://example.com/d.csv"
          ("HTTP " ++ Nat.repr 404 ++ " " ++ "Not Found")))
      (Nat.repr 404) = true := by
  have h := c6_timeout_distinct
    ⟨fun _ => true, fun _ => FetchOutcome.timeout, fun _ => .ok []⟩
    "http://example.com/d.csv" (by decide) rfl
    "getaddrinfo ENOTFOUND example.com" (by decide) 404 "Not Found"
  exact ⟨by decide, rfl, by decide, h.1, h.2.1, h.2.2.1, h.2.2.2.1,
    h.2.2.2.2.1, h.2.2.2.2.2⟩

/-! ### Claim C8: EDA prompt count and embedded content -/

theorem promptShape_contains (a1 x a2 y a3 z a4 w a5 : String) :
    containsSub (a1 ++ x ++ a2 ++ y ++ a3 ++ z ++ a4 ++ w ++ a5) x = true ∧
    containsSub (a1 ++ x ++ a2 ++ y ++ a3 ++ z ++ a4 ++ w ++ a5) y = true ∧
    containsSub (a1 ++ x ++ a2 ++ y ++ a3 ++ z ++ a4 ++ w ++ a5) w = true := by
  refine ⟨?_, ?_, ?_⟩
  · exact containsSub_append_left _ (containsSub_append_left _
      (containsSub_append_left _ (containsSub_append_left _
      (containsSub_append_left _ (containsSub_append_left _
      (containsSub_append_left _ (containsSub_append_right _
      (containsSub_self x))))))))
  · exact containsSub_append_left _ (containsSub_append_left _
      (containsSub_append_left _ (containsSub_append_left _
      (containsSub_append_left _ (containsSub_append_right _
      (containsSub_self y))))))
  · exact containsSub_append_left _ (containsSub_append_right _
      (containsSub_self w))

theorem basicPrompt_contains (n : Nat) (cols : List String) (ss : Nat)
    (j : String) :
    containsSub (basicPrompt n cols ss j) (Nat.repr n) = true ∧
    containsSub (basicPrompt n cols ss j) (String.intercalate ", " cols) = true ∧
    containsSub (basicPrompt n cols ss j) j = true := by
  unfold basicPrompt
  exact promptShape_contains _ _ _ _ _ _ _ _ _

theorem detailedPrompt_contains (n : Nat) (cols : List String) (ss : Nat)
    (j : String) :
    containsSub (detailedPrompt n cols ss j) (Nat.repr n) = true ∧
    containsSub (detailedPrompt n cols ss j) (String.intercalate ", " cols) = true ∧
    containsSub (detailedPrompt n cols ss j) j = true := by
  unfold detailedPrompt
  exact promptShape_contains _ _ _ _ _ _ _ _ _

/-- C8: over a non-empty row set, `generateEDAPrompts` returns exactly one
prompt for `basic` and exactly two for `detailed` (the default), and every
returned prompt embeds, as substrings, the row count, the comma-joined column
names taken from the first row, and the serialization of the first
`min(rowCount, 5)` rows. -/
theorem c8_eda_prompts (js : List Row → String) (data : List Row) (t : String)
    (hne : data ≠ []) :
    ((t = "basic" → (generateEDAPrompts js data t).length = 1) ∧
     (t = "detailed" → (generateEDAPrompts js data t).length = 2)) ∧
    ∀ p ∈ generateEDAPrompts js data t,
      containsSub p (Nat.repr data.length) = true ∧
      containsSub p (String.intercalate ", " (Row.keys (data.headD []))) = true ∧
      containsSub p (js (data.take (min data.length 5))) = true := by
  constructor
  · constructor
    · intro hb; simp [generateEDAPrompts, hb]
    · intro hd; subst hd; simp [generateEDAPrompts]
  · intro p hp
    simp only [generateEDAPrompts] at hp
    by_cases hb : t = "basic"
    · rw [if_pos hb, List.mem_singleton] at hp
      subst hp
      exact basicPrompt_contains _ _ _ _
    · rw [if_neg hb, List.mem_cons, List.mem_singleton] at hp
      rcases hp with h | h
      · subst h; exact basicPrompt_contains _ _ _ _
      · subst h; exact detailedPrompt_contains _ _ _ _

/-- Witness for C8 at a concrete two-column, one-row set with `detailed`. -/
theorem c8_witness :
    (([[("a", "1"), ("b", "2")]] : List Row) ≠ []) ∧
    ((("detailed" : String) = "basic" →
        (generateEDAPrompts (fun _ => "SAMPLEJSON") [[("a", "1"), ("b", "2")]]
          "detailed").length = 1) ∧
     (("detailed" : String) = "detailed" →
        (generateEDAPrompts (fun _ => "SAMPLEJSON") [[("a", "1"), ("b", "2")]]
          "detailed").length = 2)) ∧
    ∀ p ∈ generateEDAPrompts (fun _ => "SAMPLEJSON") [[("a", "1"), ("b", "2")]]
        "detailed",
      containsSub p (Nat.repr ([[("a", "1"), ("b", "2")]] : List Row).length) = true ∧
      containsSub p (String.intercalate ", "
        (Row.keys (([[("a", "1"), ("b", "2")]] : List Row).headD []))) = true ∧
      containsSub p ((fun (_ : List Row) => "SAMPLEJSON")
        (([[("a", "1"), ("b", "2")]] : List Row).take
          (min ([[("a", "1"), ("b", "2")]] : List Row).length 5))) = true := by
  have h := c8_eda_prompts (fun _ => "SAMPLEJSON") [[("a", "1"), ("b", "2")]]
    "detailed" (by decide)
  exact ⟨by decide, h.1, h.2⟩

/-! ### Claim C7: fewer than 2 columns fails listing the available columns -/

/-- C7: a csv-visualization invocation over a non-empty row set whose first
record has fewer than 2 columns, with no caller-supplied column list, fails
with the InsufficientColumns error listing the actually available columns,
and no chart-config artifact is written (no `writeChartConfig` event in the
trace, which contains only validation, directory and source-load events). -/
theorem c7_insufficient_columns (env : Env) (args : RawArgs) (a : VisArgs)
    (hparse : parseVisualizeData args = .ok a) (hnocols : a.columns = none)
    (r : Row) (rest : List Row) (levs : List Event)
    (hload : readCSVFile env.loader a.csvPath = (.ok (r :: rest), levs))
    (hfew : (Row.keys r).length < 2) :
    callTool env "visualize-data" args =
      (.error ("At least 2 columns are required for visualization. " ++
        "Available columns in CSV: [" ++
        String.intercalate ", " (Row.keys r) ++ "]. " ++
        "Please ensure your CSV has at least 2 columns, or specify at least 2 column names using the \x27columns\x27 parameter."),
       Event.validateArgs "visualize-data" ::
         (if env.dirExists (resolveSaveDir a.outputDir) then []
          else [Event.mkdirOutput (resolveSaveDir a.outputDir)]) ++ levs) ∧
    ∀ p c, Event.writeChartConfig p c ∉ (callTool env "visualize-data" args).snd := by
  have hc2 : ((Row.keys r).take 2).length < 2 := by
    rw [List.length_take]; omega
  have hmain : callTool env "visualize-data" args =
      (.error ("At least 2 columns are required for visualization. " ++
        "Available columns in CSV: [" ++
        String.intercalate ", " (Row.keys r) ++ "]. " ++
        "Please ensure your CSV has at least 2 columns, or specify at least 2 column names using the \x27columns\x27 parameter."),
       Event.validateArgs "visualize-data" ::
         (if env.dirExists (resolveSaveDir a.outputDir) then []
          else [Event.mkdirOutput (resolveSaveDir a.outputDir)]) ++ levs) := by
    rw [callTool_visualizeData]
    simp only [visualizeDataCase, hparse, hload, hnocols, hc2, if_pos]
  refine ⟨hmain, ?_⟩
  intro p c hmem
  rw [hmain] at hmem
  simp only [List.mem_append, List.mem_cons] at hmem
  rcases hmem with (h | h) | h
  · exact Event.noConfusion h
  · by_cases hd : env.dirExists (resolveSaveDir a.outputDir)
    · simp [hd] at h
    · simp [hd] at h
  · have h2 := readCSVFile_events env.loader a.csvPath (Event.writeChartConfig p c)
      (by rw [hload]; exact h)
    rcases h2 with h3 | h3 <;> exact Event.noConfusion h3

/-! ### Claim C10: column-name existence is never validated -/

theorem createVis_head (env : VisEnv) (data : List Row) (cols : List String)
    (ty ti od : String) :
    ∃ tail, (createVisualizationWithImage env data cols ty ti od).snd =
      Event.writeChartConfig (pathJoin od (configFilename ty env.now))
        (mkChartConfig env.parseNumber data cols ty ti) :: tail := by
  unfold createVisualizationWithImage renderChartImage uploadToSupabase
  rcases env with ⟨now, se, re, ie, sc, uo, pn⟩
  cases se <;> cases re <;> cases ie <;> cases sc <;> cases uo <;>
    exact ⟨_, rfl⟩

/-- C10: a caller-supplied column list of length at least 2 whose names are
not keys of any record does not make csv-visualization fail: the handler only
checks the list's length, so the invocation succeeds and the written chart
config has `undefined` (`none`) labels from the missing first column and NaN
dataset values from the `Number` coercion of the missing second column, for
every row. -/
theorem c10_missing_columns_not_validated (env : Env) (args : RawArgs)
    (a : VisArgs) (hparse : parseVisualizeData args = .ok a)
    (cs : List String) (hcs : a.columns = some cs) (hlen : 2 ≤ cs.length)
    (r : Row) (rest : List Row) (levs : List Event)
    (hload : readCSVFile env.loader a.csvPath = (.ok (r :: rest), levs))
    (hmiss : ∀ row ∈ (r :: rest : List Row), ∀ c ∈ cs, Row.cell row c = none) :
    ∃ resp evs,
      callTool env "visualize-data" args = (.ok resp, evs) ∧
      Event.writeChartConfig
          (pathJoin (resolveSaveDir a.outputDir)
            (configFilename a.visualizationType env.vis.now))
          (mkChartConfig env.vis.parseNumber (r :: rest) cs
            a.visualizationType (a.title.getD "")) ∈ evs ∧
      (mkChartConfig env.vis.parseNumber (r :: rest) cs a.visualizationType
          (a.title.getD "")).labels = (r :: rest).map (fun _ => none) ∧
      (mkChartConfig env.vis.parseNumber (r :: rest) cs a.visualizationType
          (a.title.getD "")).data = (r :: rest).map (fun _ => JSNum.nan) := by
  obtain ⟨c0, c1, cs', rfl⟩ : ∃ c0 c1 cs', cs = c0 :: c1 :: cs' := by
    rcases cs with _ | ⟨c0, _ | ⟨c1, cs'⟩⟩
    · simp at hlen
    · simp at hlen
    · exact ⟨c0, c1, cs', rfl⟩
  have hget0 : (c0 :: c1 :: cs').get? 0 = some c0 := rfl
  have hget1 : (c0 :: c1 :: cs').get? 1 = some c1 := rfl
  have hlabels : (mkChartConfig env.vis.parseNumber (r :: rest)
      (c0 :: c1 :: cs') a.visualizationType (a.title.getD "")).labels =
      (r :: rest).map (fun _ => none) := by
    simp only [mkChartConfig, hget0]
    apply List.map_congr_left
    intro row hrow
    simp [jsCell, hmiss row hrow c0 (by simp)]
  have hdata : (mkChartConfig env.vis.parseNumber (r :: rest)
      (c0 :: c1 :: cs') a.visualizationType (a.title.getD "")).data =
      (r :: rest).map (fun _ => JSNum.nan) := by
    simp only [mkChartConfig, hget1]
    apply List.map_congr_left
    intro row hrow
    simp [jsCell, jsNumber, hmiss row hrow c1 (by simp)]
  obtain ⟨result, visEvs, hcreate⟩ : ∃ result visEvs,
      createVisualizationWithImage env.vis (r :: rest) (c0 :: c1 :: cs')
        a.visualizationType (a.title.getD "") (resolveSaveDir a.outputDir) =
        (result, visEvs) := ⟨_, _, rfl⟩
  obtain ⟨tail, htail⟩ :=
    createVis_head env.vis (r :: rest) (c0 :: c1 :: cs') a.visualizationType
      (a.title.getD "") (resolveSaveDir a.outputDir)
  rw [hcreate] at htail
  have hlt : ¬ ((c0 :: c1 :: cs').length < 2) := by simp
  refine ⟨.visualization a.visualizationType result.configPath
      (basename result.configPath)
      (match result.imagePath with
       | some ip => some (ip, basename ip, result.imageUrl)
       | none => none),
    (Event.validateArgs "visualize-data" ::
      (if env.dirExists (resolveSaveDir a.outputDir) then []
       else [Event.mkdirOutput (resolveSaveDir a.outputDir)]) ++ levs) ++ visEvs,
    ?_, ?_, hlabels, hdata⟩
  · rw [callTool_visualizeData]
    simp only [visualizeDataCase, hparse, hload, hcs]
    rw [if_neg hlt]
    simp only [hcreate]
  · apply List.mem_append.mpr
    right
    have htail2 : visEvs =
        Event.writeChartConfig (pathJoin (resolveSaveDir a.outputDir)
          (configFilename a.visualizationType env.vis.now))
          (mkChartConfig env.vis.parseNumber (r :: rest) (c0 :: c1 :: cs')
            a.visualizationType (a.title.getD "")) :: tail := htail
    rw [htail2]
    exact List.mem_cons_self _ _

/-! ### Claim C3: after ConfigWritten the response is successful;
image path and signed URL are independently nullable -/

theorem createVis_fields (env : VisEnv) (data : List Row) (cols : List String)
    (ty ti od : String) :
    (createVisualizationWithImage env data cols ty ti od).fst.configPath =
      pathJoin od (configFilename ty env.now) ∧
    (env.scriptExists = false →
      (createVisualizationWithImage env data cols ty ti od).fst.imagePath =
        (if env.imageExists then some (pathJoin od (imageFilename ty env.now))
         else none) ∧
      (createVisualizationWithImage env data cols ty ti od).fst.imageUrl = none) ∧
    (∀ m, env.renderExec = .error m →
      (createVisualizationWithImage env data cols ty ti od).fst.imagePath =
        (if env.imageExists then some (pathJoin od (imageFilename ty env.now))
         else none) ∧
      (createVisualizationWithImage env data cols ty ti od).fst.imageUrl = none) ∧
    (env.scriptExists = true → env.renderExec = .ok () → env.imageExists = true →
      (createVisualizationWithImage env data cols ty ti od).fst.imagePath =
        some (pathJoin od (imageFilename ty env.now)) ∧
      (env.supabaseConfigured = true → ∀ m,
        (env.uploadOutcome = .storageError m ∨
         env.uploadOutcome = .signedUrlError m ∨
         env.uploadOutcome = .thrown m) →
        (createVisualizationWithImage env data cols ty ti od).fst.imageUrl =
          none) ∧
      (env.supabaseConfigured = false →
        (createVisualizationWithImage env data cols ty ti od).fst.imageUrl =
          none)) := by
  rcases env with ⟨now, se, re, ie, sc, uo, pn⟩
  cases se <;> cases re <;> cases ie <;> cases sc <;> cases uo <;>
    simp [createVisualizationWithImage, renderChartImage, uploadToSupabase]

/-- C3: every csv-visualization invocation that reaches the point where the
chart-config artifact is written (source loaded, enough columns) returns a
successful overall response carrying the non-null config path, regardless of
any later render or upload failure; the rendered-image and signed-URL fields
are independently nullable — a missing render script or a failed render
leaves the config path intact, and a failed upload (storage error, signed-URL
error, or thrown storage interaction) or an unconfigured storage collaborator
yields a null URL while the successfully rendered image path is still
returned non-null. -/
theorem c3_config_written_implies_success (env : Env) (args : RawArgs)
    (a : VisArgs) (hparse : parseVisualizeData args = .ok a)
    (r : Row) (rest : List Row) (levs : List Event)
    (hload : readCSVFile env.loader a.csvPath = (.ok (r :: rest), levs))
    (cols : List String)
    (hcols : a.columns = some cols ∨
      (a.columns = none ∧ cols = (Row.keys r).take 2))
    (hlen : ¬ (cols.length < 2)) :
    ∃ evs img,
      callTool env "visualize-data" args =
        (.ok (.visualization a.visualizationType
          (pathJoin (resolveSaveDir a.outputDir)
            (configFilename a.visualizationType env.vis.now))
          (basename (pathJoin (resolveSaveDir a.outputDir)
            (configFilename a.visualizationType env.vis.now))) img), evs) ∧
      (env.vis.scriptExists = false →
        img = (if env.vis.imageExists then
          some (pathJoin (resolveSaveDir a.outputDir)
            (imageFilename a.visualizationType env.vis.now),
          basename (pathJoin (resolveSaveDir a.outputDir)
            (imageFilename a.visualizationType env.vis.now)), none) else none)) ∧
      (∀ m, env.vis.renderExec = .error m →
        img = (if env.vis.imageExists then
          some (pathJoin (resolveSaveDir a.outputDir)
            (imageFilename a.visualizationType env.vis.now),
          basename (pathJoin (resolveSaveDir a.outputDir)
            (imageFilename a.visualizationType env.vis.now)), none) else none)) ∧
      (env.vis.scriptExists = true → env.vis.renderExec = .ok () →
        env.vis.imageExists = true → env.vis.supabaseConfigured = true →
        ∀ m, (env.vis.uploadOutcome = .storageError m ∨
              env.vis.uploadOutcome = .signedUrlError m ∨
              env.vis.uploadOutcome = .thrown m) →
          img = some (pathJoin (resolveSaveDir a.outputDir)
            (imageFilename a.visualizationType env.vis.now),
          basename (pathJoin (resolveSaveDir a.outputDir)
            (imageFilename a.visualizationType env.vis.now)), none)) ∧
      (env.vis.scriptExists = true → env.vis.renderExec = .ok () →
        env.vis.imageExists = true → env.vis.supabaseConfigured = false →
          img = some (pathJoin (resolveSaveDir a.outputDir)
            (imageFilename a.visualizationType env.vis.now),
          basename (pathJoin (resolveSaveDir a.outputDir)
            (imageFilename a.visualizationType env.vis.now)), none)) := by
  obtain ⟨result, visEvs, hcreate⟩ : ∃ result visEvs,
      createVisualizationWithImage env.vis (r :: rest) cols
        a.visualizationType (a.title.getD "") (resolveSaveDir a.outputDir) =
        (result, visEvs) := ⟨_, _, rfl⟩
  have hf := createVis_fields env.vis (r :: rest) cols a.visualizationType
    (a.title.getD "") (resolveSaveDir a.outputDir)
  rw [hcreate] at hf
  have hcfg : result.configPath = pathJoin (resolveSaveDir a.outputDir)
      (configFilename a.visualizationType env.vis.now) := hf.1
  have hmain : callTool env "visualize-data" args =
      (.ok (.visualization a.visualizationType result.configPath
        (basename result.configPath)
        (match result.imagePath with
         | some ip => some (ip, basename ip, result.imageUrl)
         | none => none)),
       (Event.validateArgs "visualize-data" ::
         (if env.dirExists (resolveSaveDir a.outputDir) then []
          else [Event.mkdirOutput (resolveSaveDir a.outputDir)]) ++ levs)
        ++ visEvs) := by
    rw [callTool_visualizeData]
    rcases hcols with hsome | ⟨hnone, hcolseq⟩
    · simp only [visualizeDataCase, hparse, hload, hsome]
      rw [if_neg hlen]
      simp only [hcreate]
    · subst hcolseq
      simp only [visualizeDataCase, hparse, hload, hnone]
      rw [if_neg hlen]
      simp only [hcreate]
  refine ⟨_, (match result.imagePath with
    | some ip => some (ip, basename ip, result.imageUrl)
    | none => none), by rw [hmain, hcfg], ?_, ?_, ?_, ?_⟩
  · intro hse
    obtain ⟨hip, hiu⟩ : result.imagePath =
        (if env.vis.imageExists then some (pathJoin (resolveSaveDir a.outputDir)
          (imageFilename a.visualizationType env.vis.now)) else none) ∧
        result.imageUrl = none := hf.2.1 hse
    by_cases hie : env.vis.imageExists
    · rw [if_pos hie] at hip
      rw [hip, hiu, if_pos hie]
    · rw [if_neg hie] at hip
      rw [hip, if_neg hie]
  · intro m hre
    obtain ⟨hip, hiu⟩ : result.imagePath =
        (if env.vis.imageExists then some (pathJoin (resolveSaveDir a.outputDir)
          (imageFilename a.visualizationType env.vis.now)) else none) ∧
        result.imageUrl = none := hf.2.2.1 m hre
    by_cases hie : env.vis.imageExists
    · rw [if_pos hie] at hip
      rw [hip, hiu, if_pos hie]
    · rw [if_neg hie] at hip
      rw [hip, if_neg hie]
  · intro hse hre hie hsc m hout
    obtain ⟨hip, hurl, hnocfg⟩ : result.imagePath =
        some (pathJoin (resolveSaveDir a.outputDir)
          (imageFilename a.visualizationType env.vis.now)) ∧
        (env.vis.supabaseConfigured = true → ∀ m2,
          (env.vis.uploadOutcome = .storageError m2 ∨
           env.vis.uploadOutcome = .signedUrlError m2 ∨
           env.vis.uploadOutcome = .thrown m2) →
          result.imageUrl = none) ∧
        (env.vis.supabaseConfigured = false →
          result.imageUrl = none) := hf.2.2.2 hse hre hie
    rw [hip, hurl hsc m hout]
  · intro hse hre hie hsc
    obtain ⟨hip, hurl, hnocfg⟩ : result.imagePath =
        some (pathJoin (resolveSaveDir a.outputDir)
          (imageFilename a.visualizationType env.vis.now)) ∧
        (env.vis.supabaseConfigured = true → ∀ m2,
          (env.vis.uploadOutcome = .storageError m2 ∨
           env.vis.uploadOutcome = .signedUrlError m2 ∨
           env.vis.uploadOutcome = .thrown m2) →
          result.imageUrl = none) ∧
        (env.vis.supabaseConfigured = false →
          result.imageUrl = none) := hf.2.2.2 hse hre hie
    rw [hip, hnocfg hsc]

/-! ### Claim C4: validation and directory creation precede external calls -/

theorem pre_events_ok (tool saveDir : String) (b : Bool) :
    ∀ e ∈ (Event.validateArgs tool ::
      (if b then ([] : List Event) else [Event.mkdirOutput saveDir])),
      Event.isExternalCall e = false := by
  intro e he
  rcases List.mem_cons.mp he with h | h
  · subst h; rfl
  · cases b
    · simp at h; subst h; rfl
    · simp at h

theorem genThinkingCase_split (env : Env) (args : RawArgs) :
    ∃ pre post, (generateThinkingCase env args).snd = pre ++ post ∧
      (∀ e ∈ pre, Event.isExternalCall e = false) ∧
      (∀ e ∈ post, Event.isValidateOrMkdir e = false) := by
  cases hp : parseGenerateThinking args with
  | error m => exact ⟨[], [], by simp [generateThinkingCase, hp], by simp, by simp⟩
  | ok a =>
      cases hm : env.modelCall a.prompt with
      | error m =>
          refine ⟨Event.validateArgs "generate-thinking" ::
            (if env.dirExists (resolveSaveDir a.outputDir) then []
             else [Event.mkdirOutput (resolveSaveDir a.outputDir)]),
            [Event.modelCall a.prompt], ?_, pre_events_ok _ _ _, ?_⟩
          · simp [generateThinkingCase, hp, hm]
          · intro e he; simp at he; subst he; rfl
      | ok tx =>
          refine ⟨Event.validateArgs "generate-thinking" ::
            (if env.dirExists (resolveSaveDir a.outputDir) then []
             else [Event.mkdirOutput (resolveSaveDir a.outputDir)]),
            [Event.modelCall a.prompt,
             Event.writeFile (pathJoin (resolveSaveDir a.outputDir)
               ("gemini_thinking_" ++ Nat.repr env.now ++ ".txt")) tx],
            ?_, pre_events_ok _ _ _, ?_⟩
          · simp [generateThinkingCase, hp, hm]
          · intro e he
            rcases List.mem_cons.mp he with h | h
            · subst h; rfl
            · simp at h; subst h; rfl

theorem analyzeCSVCase_split (env : Env) (args : RawArgs) :
    ∃ pre post, (analyzeCSVCase env args).snd = pre ++ post ∧
      (∀ e ∈ pre, Event.isExternalCall e = false) ∧
      (∀ e ∈ post, Event.isValidateOrMkdir e = false) := by
  cases hp : parseAnalyzeCSV args with
  | error m => exact ⟨[], [], by simp [analyzeCSVCase, hp], by simp, by simp⟩
  | ok a =>
      obtain ⟨csvRes, levs, hload⟩ : ∃ x y,
          readCSVFile env.loader a.csvPath = (x, y) := ⟨_, _, rfl⟩
      have hlev : ∀ e ∈ levs, Event.isValidateOrMkdir e = false := by
        intro e he
        have h2 := readCSVFile_events env.loader a.csvPath e
          (by rw [hload]; exact he)
        rcases h2 with h | h <;> subst h <;> rfl
      obtain ⟨partsRes, partEvs, hparts⟩ : ∃ x y,
          analyzeParts env.modelCall (resolveSaveDir a.outputDir) env.now
            (generateEDAPrompts env.jsonStringify
              ((readCSVFile env.loader a.csvPath).fst.toOption.getD [])
              (if a.analysisType = "" then "detailed" else a.analysisType)) 0 =
            (x, y) := ⟨_, _, rfl⟩
      have hpev : ∀ e ∈ partEvs, Event.isValidateOrMkdir e = false := by
        intro e he
        have h2 := analyzeParts_events env.modelCall (resolveSaveDir a.outputDir)
          env.now _ 0 e (by rw [hparts]; exact he)
        rcases h2 with ⟨q, h⟩ | ⟨f, c, h⟩ <;> subst h <;> rfl
      cases csvRes with
      | error m =>
          refine ⟨Event.validateArgs "analyze-csv" ::
            (if env.dirExists (resolveSaveDir a.outputDir) then []
             else [Event.mkdirOutput (resolveSaveDir a.outputDir)]),
            levs, ?_, pre_events_ok _ _ _, hlev⟩
          simp [analyzeCSVCase, hp, hload]
      | ok csvData =>
          by_cases hz : csvData.length = 0
          · refine ⟨Event.validateArgs "analyze-csv" ::
              (if env.dirExists (resolveSaveDir a.outputDir) then []
               else [Event.mkdirOutput (resolveSaveDir a.outputDir)]),
              levs, ?_, pre_events_ok _ _ _, hlev⟩
            simp [analyzeCSVCase, hp, hload, hz]
          · have hparts2 : analyzeParts env.modelCall (resolveSaveDir a.outputDir)
                env.now (generateEDAPrompts env.jsonStringify csvData
                  (if a.analysisType = "" then "detailed" else a.analysisType)) 0 =
                (partsRes, partEvs) := by
              have : (readCSVFile env.loader a.csvPath).fst.toOption.getD [] =
                  csvData := by rw [hload]; rfl
              rw [← this]; exact hparts
            cases partsRes with
            | error m =>
                refine ⟨Event.validateArgs "analyze-csv" ::
                  (if env.dirExists (resolveSaveDir a.outputDir) then []
                   else [Event.mkdirOutput (resolveSaveDir a.outputDir)]),
                  levs ++ partEvs, ?_, pre_events_ok _ _ _, ?_⟩
                · simp [analyzeCSVCase, hp, hload, hz, hparts2]
                · intro e he
                  rcases List.mem_append.mp he with h | h
                  · exact hlev e h
                  · exact hpev e h
            | ok parts =>
                refine ⟨Event.validateArgs "analyze-csv" ::
                  (if env.dirExists (resolveSaveDir a.outputDir) then []
                   else [Event.mkdirOutput (resolveSaveDir a.outputDir)]),
                  levs ++ partEvs ++
                    [Event.writeFile (pathJoin (resolveSaveDir a.outputDir)
                      ("csv_analysis_" ++ Nat.repr env.now ++ "_summary.txt"))
                      (summaryContent parts)],
                  ?_, pre_events_ok _ _ _, ?_⟩
                · simp [analyzeCSVCase, hp, hload, hz, hparts2]
                · intro e he
                  rcases List.mem_append.mp he with h | h
                  · rcases List.mem_append.mp h with h2 | h2
                    · exact hlev e h2
                    · exact hpev e h2
                  · simp at h; subst h; rfl

theorem visualizeDataCase_split (env : Env) (args : RawArgs) :
    ∃ pre post, (visualizeDataCase env args).snd = pre ++ post ∧
      (∀ e ∈ pre, Event.isExternalCall e = false) ∧
      (∀ e ∈ post, Event.isValidateOrMkdir e = false) := by
  cases hp : parseVisualizeData args with
  | error m => exact ⟨[], [], by simp [visualizeDataCase, hp], by simp, by simp⟩
  | ok a =>
      obtain ⟨csvRes, levs, hload⟩ : ∃ x y,
          readCSVFile env.loader a.csvPath = (x, y) := ⟨_, _, rfl⟩
      have hlev : ∀ e ∈ levs, Event.isValidateOrMkdir e = false := by
        intro e he
        have h2 := readCSVFile_events env.loader a.csvPath e
          (by rw [hload]; exact he)
        rcases h2 with h | h <;> subst h <;> rfl
      cases csvRes with
      | error m =>
          refine ⟨Event.validateArgs "visualize-data" ::
            (if env.dirExists (resolveSaveDir a.outputDir) then []
             else [Event.mkdirOutput (resolveSaveDir a.outputDir)]),
            levs, ?_, pre_events_ok _ _ _, hlev⟩
          simp [visualizeDataCase, hp, hload]
      | ok csvData =>
          cases csvData with
          | nil =>
              refine ⟨Event.validateArgs "visualize-data" ::
                (if env.dirExists (resolveSaveDir a.outputDir) then []
                 else [Event.mkdirOutput (resolveSaveDir a.outputDir)]),
                levs, ?_, pre_events_ok _ _ _, hlev⟩
              simp [visualizeDataCase, hp, hload]
          | cons firstRow rest =>
              by_cases hlt : (match a.columns with
                | some cs => cs
                | none => (Row.keys firstRow).take 2).length < 2
              · refine ⟨Event.validateArgs "visualize-data" ::
                  (if env.dirExists (resolveSaveDir a.outputDir) then []
                   else [Event.mkdirOutput (resolveSaveDir a.outputDir)]),
                  levs, ?_, pre_events_ok _ _ _, hlev⟩
                simp only [visualizeDataCase, hp, hload]
                rw [if_pos hlt]
              · obtain ⟨result, visEvs, hcreate⟩ : ∃ x y,
                    createVisualizationWithImage env.vis (firstRow :: rest)
                      (match a.columns with
                       | some cs => cs
                       | none => (Row.keys firstRow).take 2)
                      a.visualizationType (a.title.getD "")
                      (resolveSaveDir a.outputDir) = (x, y) := ⟨_, _, rfl⟩
                have hvev : ∀ e ∈ visEvs, Event.isValidateOrMkdir e = false := by
                  intro e he
                  have h2 := createVis_events env.vis (firstRow :: rest) _
                    a.visualizationType (a.title.getD "")
                    (resolveSaveDir a.outputDir) e (by rw [hcreate]; exact he)
                  rcases h2 with ⟨p, c, h⟩ | ⟨x, y, h⟩ | ⟨f, h⟩ <;> subst h <;> rfl
                refine ⟨Event.validateArgs "visualize-data" ::
                  (if env.dirExists (resolveSaveDir a.outputDir) then []
                   else [Event.mkdirOutput (resolveSaveDir a.outputDir)]),
                  levs ++ visEvs, ?_, pre_events_ok _ _ _, ?_⟩
                · simp only [visualizeDataCase, hp, hload]
                  rw [if_neg hlt]
                  simp [hcreate]
                · intro e he
                  rcases List.mem_append.mp he with h | h
                  · exact hlev e h
                  · exact hvev e h

/-- C4: for every tool invocation, argument validation and output-directory
creation happen strictly before any external network or subprocess call: the
trace factors as a prefix with no external call (containing all validation
and mkdir events) followed by a suffix with no validation or mkdir event.
Dispatching an unknown tool name returns the `Unknown tool` error with an
empty trace — no directory creation and no external call. -/
theorem c4_validate_mkdir_before_external (env : Env) (name : String)
    (args : RawArgs) :
    (name ≠ "generate-thinking" → name ≠ "analyze-csv" →
      name ≠ "visualize-data" →
      callTool env name args = (.error ("Unknown tool: " ++ name), [])) ∧
    (∃ pre post, (callTool env name args).snd = pre ++ post ∧
      (∀ e ∈ pre, Event.isExternalCall e = false) ∧
      (∀ e ∈ post, Event.isValidateOrMkdir e = false)) := by
  constructor
  · intro h1 h2 h3
    unfold callTool
    rw [if_neg h1, if_neg h2, if_neg h3]
  · by_cases h1 : name = "generate-thinking"
    · subst h1
      rw [callTool_generateThinking]
      exact genThinkingCase_split env args
    · by_cases h2 : name = "analyze-csv"
      · subst h2
        rw [callTool_analyzeCSV]
        exact analyzeCSVCase_split env args
      · by_cases h3 : name = "visualize-data"
        · subst h3
          rw [callTool_visualizeData]
          exact visualizeDataCase_split env args
        · have : callTool env name args =
              (.error ("Unknown tool: " ++ name), []) := by
            unfold callTool
            rw [if_neg h1, if_neg h2, if_neg h3]
          exact ⟨[], [], by simp [this], by simp, by simp⟩

/-! ### Claim C1: partial success is NOT returned by analyze-csv -/

/-- C1 counterexample: in the csv-analysis sequence with the default
`detailed` depth, the first model call succeeds and its artifact is written
(the `writeFile` event is in the trace), the second model call fails — and
the whole invocation returns the thrown error: the earlier part's response
and artifact path are NOT included in any response, contradicting the claim
that an earlier stage's successful artifact is always returned to the
caller. -/
theorem c1_counterexample :
    (callTool envC1 "analyze-csv" argsC1).fst = .error "model failure" ∧
    Event.writeFile (pathJoin defaultOutputDir
        ("csv_analysis_" ++ Nat.repr 7 ++ "_part" ++ Nat.repr 1 ++ ".txt"))
        "part one response" ∈ (callTool envC1 "analyze-csv" argsC1).snd := by
  constructor
  · rfl
  · simp only [callTool_analyzeCSV]
    decide

/-- C1 amended: for the csv-analysis sequence, a model-call failure on the
second prompt after the first succeeded is terminal for the whole invocation:
the handler returns the thrown error, and the first part's response survives
only as a file on disk (its `writeFile` event is in the trace) — it is not
part of the tool response.  (The graceful-degradation behaviour the original
claim describes holds only for the visualization sequence, proved at C3.) -/
theorem c1_amended_analyze_discards (env : Env) (args : RawArgs)
    (a : AnalyzeArgs) (hparse : parseAnalyzeCSV args = .ok a)
    (r : Row) (rest : List Row) (levs : List Event)
    (hload : readCSVFile env.loader a.csvPath = (.ok (r :: rest), levs))
    (p1 p2 : String)
    (hprompts : generateEDAPrompts env.jsonStringify (r :: rest)
        (if a.analysisType = "" then "detailed" else a.analysisType) = [p1, p2])
    (resp1 : String) (h1 : env.modelCall p1 = .ok resp1)
    (err : String) (h2 : env.modelCall p2 = .error err) :
    callTool env "analyze-csv" args =
      (.error err,
       (Event.validateArgs "analyze-csv" ::
         (if env.dirExists (resolveSaveDir a.outputDir) then []
          else [Event.mkdirOutput (resolveSaveDir a.outputDir)]) ++ levs) ++
       [Event.modelCall p1,
        Event.writeFile (pathJoin (resolveSaveDir a.outputDir)
          ("csv_analysis_" ++ Nat.repr env.now ++ "_part" ++ Nat.repr 1 ++
            ".txt")) resp1,
        Event.modelCall p2]) := by
  rw [callTool_analyzeCSV]
  simp only [analyzeCSVCase, hparse, hload]
  rw [if_neg (by simp : ¬ ((r :: rest).length = 0))]
  rw [hprompts]
  simp only [analyzeParts, h1, h2]

/-- Witness for the amended C1 at the concrete environment `envC1`. -/
theorem c1_amended_witness :
    callTool envC1 "analyze-csv" argsC1 =
      (.error "model failure",
       [Event.validateArgs "analyze-csv", Event.readLocal "d.csv",
        Event.modelCall (basicPrompt 1 ["a"] 1 "[]"),
        Event.writeFile (pathJoin defaultOutputDir
          ("csv_analysis_" ++ Nat.repr 7 ++ "_part" ++ Nat.repr 1 ++ ".txt"))
          "part one response",
        Event.modelCall (detailedPrompt 1 ["a"] 1 "[]")]) :=
  c1_amended_analyze_discards envC1 argsC1 ⟨"d.csv", none, "detailed"⟩ rfl
    [("a", "1")] [] [.readLocal "d.csv"] rfl
    (basicPrompt 1 ["a"] 1 "[]") (detailedPrompt 1 ["a"] 1 "[]") rfl
    "part one response" rfl "model failure" rfl

/-! ### Claim C2: artifact filenames collide within the same tick -/

/-- C2 counterexample: two distinct csv-visualization invocations in the same
output directory during the same process tick (both `Date.now()` reads return
77) both succeed and produce the SAME config artifact path — the filenames
collide, refuting the claim that the timestamp component prevents collisions
within the same process tick. -/
theorem c2_counterexample :
    respConfigPath (callTool envC2a "visualize-data"
        { csvPath := some "v.csv" }).fst =
      some (pathJoin defaultOutputDir "chart_config_bar_77.json") ∧
    respConfigPath (callTool envC2b "visualize-data"
        { csvPath := some "w.csv" }).fst =
      some (pathJoin defaultOutputDir "chart_config_bar_77.json") :=
  ⟨rfl, rfl⟩

/-- C2 amended: the timestamp is the only varying filename component, so for
a fixed chart type two invocations' artifact filenames (config and image)
coincide exactly when their `Date.now()` timestamps coincide: distinct ticks
give distinct filenames, and within one tick the filenames collide. -/
theorem c2_amended_filenames (type : String) (t1 t2 : Nat) :
    (configFilename type t1 = configFilename type t2 ↔ t1 = t2) ∧
    (imageFilename type t1 = imageFilename type t2 ↔ t1 = t2) :=
  ⟨⟨fun h => configFilename_inj h, fun h => by rw [h]⟩,
   ⟨fun h => imageFilename_inj h, fun h => by rw [h]⟩⟩

/-- Witness for the amended C2 at type `bar` and ticks 1 and 2. -/
theorem c2_amended_witness :
    (configFilename "bar" 1 = configFilename "bar" 2 ↔ (1 : Nat) = 2) ∧
    (imageFilename "bar" 1 = imageFilename "bar" 2 ↔ (1 : Nat) = 2) :=
  c2_amended_filenames "bar" 1 2

/-! ### Witnesses for the handler-level claims -/

/-- Witness for C7: a one-column local CSV with no caller columns fails with
the InsufficientColumns message listing `only`, and writes no chart config. -/
theorem c7_witness :
    (Row.keys [("only", "1")]).length < 2 ∧
    callTool envC7 "visualize-data" { csvPath := some "one.csv" } =
      (.error ("At least 2 columns are required for visualization. " ++
        "Available columns in CSV: [" ++
        String.intercalate ", " (Row.keys [("only", "1")]) ++ "]. " ++
        "Please ensure your CSV has at least 2 columns, or specify at least 2 column names using the \x27columns\x27 parameter."),
       Event.validateArgs "visualize-data" ::
         (if envC7.dirExists (resolveSaveDir none) then []
          else [Event.mkdirOutput (resolveSaveDir none)]) ++
         [Event.readLocal "one.csv"]) ∧
    ∀ p c, Event.writeChartConfig p c ∉
      (callTool envC7 "visualize-data" { csvPath := some "one.csv" }).snd :=
  have h := c7_insufficient_columns envC7 { csvPath := some "one.csv" }
    ⟨"one.csv", none, "bar", none, none⟩ rfl rfl [("only", "1")] []
    [.readLocal "one.csv"] rfl (by decide)
  ⟨by decide, h.1, h.2⟩

/-- Witness for C10: caller columns `a`, `b` absent from the row set still
succeed, writing a config of `undefined` labels and NaN values. -/
theorem c10_witness :
    2 ≤ (["a", "b"] : List String).length ∧
    (∀ row ∈ ([[("x", "1")]] : List Row), ∀ c ∈ ["a", "b"],
      Row.cell row c = none) ∧
    ∃ resp evs,
      callTool envC10 "visualize-data"
          { csvPath := some "m.csv", columns := some ["a", "b"] } =
        (.ok resp, evs) ∧
      Event.writeChartConfig
          (pathJoin (resolveSaveDir none) (configFilename "bar" 9))
          (mkChartConfig envC10.vis.parseNumber [[("x", "1")]] ["a", "b"]
            "bar" "") ∈ evs ∧
      (mkChartConfig envC10.vis.parseNumber [[("x", "1")]] ["a", "b"]
          "bar" "").labels = ([[("x", "1")]] : List Row).map (fun _ => none) ∧
      (mkChartConfig envC10.vis.parseNumber [[("x", "1")]] ["a", "b"]
          "bar" "").data = ([[("x", "1")]] : List Row).map (fun _ => JSNum.nan) :=
  have h := c10_missing_columns_not_validated envC10
    { csvPath := some "m.csv", columns := some ["a", "b"] }
    ⟨"m.csv", none, "bar", some ["a", "b"], none⟩ rfl ["a", "b"] rfl (by decide)
    [("x", "1")] [] [.readLocal "m.csv"] rfl (by decide)
  ⟨by decide, by decide, h⟩

/-- Witness for C3: with a configured storage collaborator whose upload
fails, the invocation still succeeds with the config path, and the upload
conjunct forces a non-null image path with a null signed URL. -/
theorem c3_witness :
    ∃ evs img,
      callTool envC3 "visualize-data" { csvPath := some "v.csv" } =
        (.ok (.visualization "bar"
          (pathJoin (resolveSaveDir none) (configFilename "bar" 5))
          (basename (pathJoin (resolveSaveDir none) (configFilename "bar" 5)))
          img), evs) ∧
      (envC3.vis.scriptExists = false →
        img = (if envC3.vis.imageExists then
          some (pathJoin (resolveSaveDir none) (imageFilename "bar" 5),
          basename (pathJoin (resolveSaveDir none) (imageFilename "bar" 5)),
          none) else none)) ∧
      (∀ m, envC3.vis.renderExec = .error m →
        img = (if envC3.vis.imageExists then
          some (pathJoin (resolveSaveDir none) (imageFilename "bar" 5),
          basename (pathJoin (resolveSaveDir none) (imageFilename "bar" 5)),
          none) else none)) ∧
      (envC3.vis.scriptExists = true → envC3.vis.renderExec = .ok () →
        envC3.vis.imageExists = true → envC3.vis.supabaseConfigured = true →
        ∀ m, (envC3.vis.uploadOutcome = .storageError m ∨
              envC3.vis.uploadOutcome = .signedUrlError m ∨
              envC3.vis.uploadOutcome = .thrown m) →
          img = some (pathJoin (resolveSaveDir none) (imageFilename "bar" 5),
          basename (pathJoin (resolveSaveDir none) (imageFilename "bar" 5)),
          none)) ∧
      (envC3.vis.scriptExists = true → envC3.vis.renderExec = .ok () →
        envC3.vis.imageExists = true → envC3.vis.supabaseConfigured = false →
          img = some (pathJoin (resolveSaveDir none) (imageFilename "bar" 5),
          basename (pathJoin (resolveSaveDir none) (imageFilename "bar" 5)),
          none)) :=
  c3_config_written_implies_success envC3 { csvPath := some "v.csv" }
    ⟨"v.csv", none, "bar", none, none⟩ rfl [("a", "1"), ("b", "2")] []
    [.readLocal "v.csv"] rfl ["a", "b"] (Or.inr ⟨rfl, rfl⟩) (by decide)

/-- Witness for C4: an unknown tool name returns the `Unknown tool` error
with an empty trace, and the trace split holds at this input. -/
theorem c4_witness :
    callTool envC4 "other-tool" {} =
      (.error ("Unknown tool: " ++ "other-tool"), []) ∧
    (∃ pre post, (callTool envC4 "other-tool" {}).snd = pre ++ post ∧
      (∀ e ∈ pre, Event.isExternalCall e = false) ∧
      (∀ e ∈ post, Event.isValidateOrMkdir e = false)) :=
  ⟨(c4_validate_mkdir_before_external envC4 "other-tool" {}).1
     (by decide) (by decide) (by decide),
   (c4_validate_mkdir_before_external envC4 "other-tool" {}).2⟩

end MCPCSV
